import Mathlib

/-!
Shallow embedding of `handle_read_image_file` from
`src/aidd/tools/image_tools.py` (the sandboxed image-file reader), together
with models of the Python / PIL library functions it calls, and proofs of the
specification claims about it.

Modelling conventions:
- Python strings are Lean `String`s; file bytes are `List Nat` (each < 256).
- The filesystem and the PIL decode/encode calls are an explicit environment
  (`Env`) of pure functions; every external call the handler performs is also
  recorded in an event trace (`Event`), so "no file read happens" claims are
  statements about the trace.
- Machine floats: Python computes the resize height as
  `int(img.height * (target_width / img.width))` in IEEE binary64.
  `flPair` / `newHeightFloat` model that computation bit-faithfully
  (correctly rounded division and multiplication — round to nearest, ties to
  even — on exact dyadic fractions). `resizeStage` uses the exact-arithmetic
  `newHeight`, which coincides with the binary64 semantics at every input on
  which the resize stage is evaluated in this file, but not universally: the
  C5 theorems exhibit the divergence.
- Python exceptions are `Except` values; the `try ... except` block of the
  source is the explicit error mapping in `handle_read_image_file`.
-/

set_option autoImplicit false

namespace ImageTools

/-- MAX_FILE_SIZE = 100 * 1024 * 1024 (source line 11). -/
def MAX_FILE_SIZE : Nat := 100 * 1024 * 1024

/-- MIN_WIDTH = 20 (source line 14). -/
def MIN_WIDTH : Nat := 20

/-- MAX_WIDTH = 800 (source line 15). -/
def MAX_WIDTH : Nat := 800

/-- Model of a PIL image object as seen by the handler: pixel dimensions and
the `format` attribute, which in PIL is `Optional[str]` (None for images not
carrying a source-format label). -/
structure PyImage where
  width : Nat
  height : Nat
  format : Option String
  deriving Repr, DecidableEq

/-- Python exceptions that can escape the `with Image.open(...)` block:
`PIL.Image.UnidentifiedImageError` from `Image.open`, `ValueError` (raised
explicitly by the handler or by PIL `resize`), and `AttributeError`
(from calling a method on `None`). The stored string is Python `str(e)`. -/
inductive PyExn where
  | unidentifiedImage
  | valueError (msg : String)
  | attributeError (msg : String)
  deriving Repr, DecidableEq

/-- The errors `handle_read_image_file` raises (all are `ValueError(msg)` in
Python; the constructors record which `raise` site produced it and the values
interpolated into the f-string). `wrapped inner` is the
`raise ValueError(f"Error reading image file: {str(e)}")` at source line 115. -/
inductive HandlerError where
  | missingPath
  | accessDenied (full allowed : String)
  | notFound (full : String)
  | notAFile (full : String)
  | tooLarge (size limit : Nat)
  | invalidImage (path : String)
  | wrapped (inner : String)
  deriving Repr, DecidableEq

/-- The exact message string each `raise ValueError(...)` site of the source
builds (source lines 47, 57, 60, 62, 67, 113, 115). -/
def HandlerError.message : HandlerError → String
  | .missingPath => "path must be provided"
  | .accessDenied full allowed =>
      "Access denied: Path (" ++ full ++ ") must be within allowed directory ("
        ++ allowed ++ ")"
  | .notFound full => "File does not exist: " ++ full
  | .notAFile full => "Path is not a file: " ++ full
  | .tooLarge size limit =>
      "File size (" ++ toString size ++ " bytes) exceeds maximum allowed size ("
        ++ toString limit ++ " bytes)"
  | .invalidImage path => "File is not a valid image: " ++ path
  | .wrapped inner => "Error reading image file: " ++ inner

/-- Trace of the external (filesystem / PIL) calls the handler performs, in
order: `os.path.exists`, `os.path.isfile`, `os.path.getsize`, `Image.open`
(the only call that reads file bytes), `img.resize`, `img.save`. -/
inductive Event where
  | checkExists (p : String)
  | checkIsFile (p : String)
  | statSize (p : String)
  | openFile (p : String)
  | resize (w h : Nat)
  | save (img : PyImage) (fmt : String) (quality : Option Nat)
  deriving Repr, DecidableEq

/-- The `arguments` dict: `path` is `None` when the key is absent. -/
structure Args where
  path : Option String
  max_size : Option Nat
  deriving Repr, DecidableEq

/-- The process environment: the immutable `state.allowed_directory`, the
current working directory (used by `os.path.abspath` on relative input), and
the filesystem / PIL primitives. `openImage` models `Image.open` reading and
sniffing the file; `save` models PIL `Image.save` producing encoded bytes
(its output only depends on the image, format and quality arguments). -/
structure Env where
  allowed_directory : String
  cwd : String
  pathExists : String → Bool
  isfile : String → Bool
  getsize : String → Nat
  openImage : String → Except PyExn PyImage
  save : PyImage → String → Option Nat → List Nat

/- ### Model of the Python path functions (`posixpath`) -/

/-- Model of Python `str.lower` for the ASCII strings occurring here
(`Char` code points 65–90 map down by 32, everything else is unchanged). -/
def pyCharLower (c : Char) : Char :=
  if 65 ≤ c.toNat ∧ c.toNat ≤ 90 then Char.ofNat (c.toNat + 32) else c

/-- Python `s.lower()`. -/
def pyLower (s : String) : String := String.mk (s.data.map pyCharLower)

/-- Python `s.lstrip('.')`: drop leading dots. -/
def lstripDot (s : String) : String := String.mk (s.data.dropWhile (· = '.'))

/-- Python `s.startswith(t)`. -/
def pyStartsWith (s t : String) : Bool := t.data.isPrefixOf s.data

/-- Python `s.endswith(t)`. -/
def pyEndsWith (s t : String) : Bool := t.data.isSuffixOf s.data

/-- Python `s.split(sep)` for a one-character separator, on the char list. -/
def splitCharAux (sep : Char) : List Char → List Char → List String
  | [], acc => [String.mk acc.reverse]
  | c :: cs, acc =>
      if c = sep then String.mk acc.reverse :: splitCharAux sep cs []
      else splitCharAux sep cs (c :: acc)

/-- Python `s.split('/')`. -/
def splitSlash (s : String) : List String := splitCharAux '/' s.data []

/-- Python `sep.join(parts)`. -/
def joinStrings (sep : String) : List String → String
  | [] => ""
  | [x] => x
  | x :: y :: xs => x ++ sep ++ joinStrings sep (y :: xs)

/-- Python `os.path.isabs`. -/
def isabs (p : String) : Bool := pyStartsWith p "/"

/-- Python `os.path.join(a, b)` (posix), for the two-argument form used by
the handler. -/
def joinPath (a b : String) : String :=
  if isabs b then b
  else if a = "" ∨ pyEndsWith a "/" then a ++ b
  else a ++ "/" ++ b

/-- The number of initial slashes `posixpath.normpath` preserves: two if the
path begins with exactly two slashes (POSIX special case), else one if
absolute, else zero. -/
def initialSlashes (p : String) : Nat :=
  if pyStartsWith p "//" ∧ ¬ pyStartsWith p "///" then 2
  else if pyStartsWith p "/" then 1 else 0

/-- One step of the `posixpath.normpath` component loop. `acc` is the list of
kept components in reverse order. Components `""` and `"."` are dropped;
`".."` pops the last kept component, except that it is kept when the path is
relative with nothing to pop or the last kept component is itself `".."`,
and silently dropped at the root of an absolute path. -/
def normStep (isl : Nat) (acc : List String) (comp : String) : List String :=
  if comp = "" ∨ comp = "." then acc
  else if comp ≠ ".." ∨ (isl = 0 ∧ acc = []) ∨ acc.head? = some ".." then
    comp :: acc
  else acc.tail

/-- Python `posixpath.normpath`. -/
def normpath (p : String) : String :=
  if p = "" then "."
  else
    let isl := initialSlashes p
    let comps := (splitSlash p).foldl (normStep isl) []
    let joined := joinStrings "/" comps.reverse
    let res := String.mk (List.replicate isl '/') ++ joined
    if res = "" then "." else res

/-- Python `os.path.abspath`: join with the working directory if relative,
then normalize. -/
def abspath (cwd p : String) : String :=
  normpath (if isabs p then p else joinPath cwd p)

/-- Index of the last occurrence of `c` in `cs`, if any. -/
def lastIdxOf (cs : List Char) (c : Char) : Option Nat :=
  (List.range cs.length).foldl
    (fun acc i => if cs.getD i ' ' = c then some i else acc) none

/-- The extension part `os.path.splitext(p)[1]` (posix): the substring from
the last dot, provided that dot lies inside the final path component and the
component has at least one non-dot character before it; else `""`. -/
def splitextExt (p : String) : String :=
  let cs := p.data
  match lastIdxOf cs '.' with
  | none => ""
  | some d =>
      let fStart := match lastIdxOf cs '/' with
        | none => 0
        | some s => s + 1
      if fStart ≤ d then
        if (List.range' fStart (d - fStart)).any (fun k => cs.getD k ' ' ≠ '.')
        then String.mk (cs.drop d)
        else ""
      else ""

/- ### Model of `base64.b64encode` (RFC 4648, no line wrapping) -/

/-- The standard base64 alphabet. -/
def b64alphabet : List Char :=
  "ABCDEFGHIJKLMNOPQRSTUVWXYZabcdefghijklmnopqrstuvwxyz0123456789+/".data

/-- The base64 digit for a 6-bit value. -/
def b64char (n : Nat) : Char := b64alphabet.getD n 'A'

/-- Python `base64.b64encode` (followed by `.decode('utf-8')`): standard
base64 with `=` padding and no line wrapping. Input bytes are taken mod 256. -/
def b64encode : List Nat → String
  | [] => ""
  | [a] =>
      let n := (a % 256) * 65536
      String.mk [b64char (n / 262144), b64char (n / 4096 % 64)] ++ "=="
  | [a, b] =>
      let n := (a % 256) * 65536 + (b % 256) * 256
      String.mk [b64char (n / 262144), b64char (n / 4096 % 64),
        b64char (n / 64 % 64)] ++ "="
  | a :: b :: c :: rest =>
      let n := (a % 256) * 65536 + (b % 256) * 256 + c % 256
      String.mk [b64char (n / 262144), b64char (n / 4096 % 64),
        b64char (n / 64 % 64), b64char (n % 64)] ++ b64encode rest

/- ### The handler pipeline (source lines 41–115) -/

/-- Source lines 50–54: the full path is the normalized absolute input, or
the input joined onto `state.allowed_directory` and normalized if relative. -/
def resolvePath (env : Env) (path : String) : String :=
  if isabs path then abspath env.cwd path
  else abspath env.cwd (joinPath env.allowed_directory path)

/-- The resize height of source lines 92–93
(`ratio = target_width / img.width; new_height = int(img.height * ratio)`)
in exact arithmetic: the floor of `h·target/w` as a `Nat` division. Python
evaluates the two steps in IEEE binary64 — that bit-faithful semantics is
`newHeightFloat` below. The two agree at every input on which `resizeStage`
is evaluated in this file, but can differ: `newHeight 98 800 39200 = 2`
while the binary64 computation yields 1 (see the C5 theorems). -/
def newHeight (h target w : Nat) : Nat := h * target / w

/-- Floor of the base-2 logarithm of `n`, by structural recursion on a fuel
argument (`log2N` supplies fuel `n`, always enough). -/
def log2Aux : Nat → Nat → Nat
  | 0, _ => 0
  | fuel + 1, n => if n ≤ 1 then 0 else log2Aux fuel (n / 2) + 1

/-- Floor of the base-2 logarithm of `n` (0 for `n = 0`). -/
def log2N (n : Nat) : Nat := log2Aux n n

/-- Round the fraction `n / d` to the nearest integer, ties to even (the
IEEE default rounding direction). -/
def roundFrac (n d : Nat) : Nat :=
  let q := n / d
  let r := n % d
  if 2 * r < d then q
  else if d < 2 * r then q + 1
  else if q % 2 = 0 then q else q + 1

/-- Whether `2^k ≤ n / d`, for an integer `k`, by cross-multiplication. -/
def pow2le (k : Int) (n d : Nat) : Bool :=
  if 0 ≤ k then d * 2 ^ k.toNat ≤ n else d ≤ n * 2 ^ (-k).toNat

/-- The binary exponent of the positive fraction `n / d`: the integer `e`
with `2^e ≤ n/d < 2^(e+1)`, obtained from the bit-length estimate and
corrected by comparison. -/
def elog (n d : Nat) : Int :=
  let k : Int := (log2N n : Int) - (log2N d : Int)
  if pow2le (k + 1) n d then k + 1
  else if pow2le k n d then k
  else k - 1

/-- The 53-bit significand of the binary64 value nearest `n / d`: the
correct rounding of `(n/d) · 2^(52−e)`, a value in `[2^52, 2^53]`. -/
def mant (n d : Nat) (e : Int) : Nat :=
  if 0 ≤ 52 - e then roundFrac (n * 2 ^ (52 - e).toNat) d
  else roundFrac n (d * 2 ^ (e - 52).toNat)

/-- The IEEE binary64 double nearest to `n / d` (round to nearest, ties to
even), returned as the exact fraction `(num, den)` it denotes, with `den` a
power of two. Overflow and the subnormal range are not modelled — every
value arising here lies far inside the normal range. `(0, 1)` is returned
for `n = 0` (and for the out-of-scope `d = 0`). -/
def flPair (n d : Nat) : Nat × Nat :=
  if n = 0 ∨ d = 0 then (0, 1)
  else
    let e := elog n d
    let m := mant n d e
    if 0 ≤ e - 52 then (m * 2 ^ (e - 52).toNat, 1)
    else (m, 2 ^ (52 - e).toNat)

/-- Source lines 92–93 exactly as Python evaluates them in binary64:
`ratio = target_width / img.width` is the correctly rounded double quotient,
`img.height * ratio` the correctly rounded double product (integers below
2^53 convert to double exactly), and `int(...)` truncates the nonnegative
double toward zero — `Nat` division by the power-of-two denominator. -/
def newHeightFloat (h target w : Nat) : Nat :=
  let r := flPair target w
  let p := flPair (h * r.1) r.2
  p.1 / p.2

/-- Source lines 87–90: the target width is MAX_WIDTH when too wide, else
MIN_WIDTH (only consulted when the width is out of range). -/
def targetWidth (w : Nat) : Nat :=
  if w > MAX_WIDTH then MAX_WIDTH else MIN_WIDTH

/-- Source lines 84–94: resize when the width is out of [MIN_WIDTH,
MAX_WIDTH], else pass the image through untouched. PIL `Image.resize` with
the LANCZOS filter raises `ValueError("height and width must be > 0")` when
either requested dimension is zero; a resized PIL image carries no `format`
attribute. The event list records whether `resize` was called. -/
def resizeStage (img : PyImage) : Except PyExn PyImage × List Event :=
  if img.width > MAX_WIDTH ∨ img.width < MIN_WIDTH then
    let t := targetWidth img.width
    let nh := newHeight img.height t img.width
    if t = 0 ∨ nh = 0 then
      (.error (.valueError "height and width must be > 0"), [.resize t nh])
    else
      (.ok { width := t, height := nh, format := none }, [.resize t nh])
  else (.ok img, [])

/-- Source lines 73–82: `image_format = img.format.lower()` — an
`AttributeError` when the attribute is `None` — then, when the lowered label
is empty, the fallback from the file extension
(`os.path.splitext(full_path)[1].lower().lstrip('.')`), raising
`ValueError("Unsupported image format: ...")` for unrecognized extensions. -/
def determineFormat (fmtAttr : Option String) (full_path : String) :
    Except PyExn String :=
  match fmtAttr with
  | none =>
      .error (.attributeError "'NoneType' object has no attribute 'lower'")
  | some f =>
      let image_format := pyLower f
      if image_format = "" then
        let ext := lstripDot (pyLower (splitextExt full_path))
        if ext = "jpg" ∨ ext = "jpeg" then .ok "jpeg"
        else if ext = "png" ∨ ext = "gif" ∨ ext = "webp" then .ok ext
        else .error (.valueError ("Unsupported image format: " ++ ext))
      else .ok image_format

/-- Source line 98: JPEG output is saved with `quality=85`, other formats
with no quality argument. -/
def jpegQuality (image_format : String) : Option Nat :=
  if pyLower image_format = "jpeg" then some 85 else none

/-- Source line 110: the returned data URI text. -/
def dataUriText (image_format : String) (bytes : List Nat) : String :=
  "data:image/" ++ image_format ++ ";base64," ++ b64encode bytes

/-- The body of the `try` block, source lines 70–111: open the image,
determine the format, resize if out of range, re-encode, base64-wrap.
Returns the data URI text or the Python exception, with the trace of
external calls. -/
def tryBody (env : Env) (full_path : String) :
    Except PyExn String × List Event :=
  match env.openImage full_path with
  | .error e => (.error e, [.openFile full_path])
  | .ok img =>
      match determineFormat img.format full_path with
      | .error e => (.error e, [.openFile full_path])
      | .ok image_format =>
          match resizeStage img with
          | (.error e, revs) => (.error e, .openFile full_path :: revs)
          | (.ok img2, revs) =>
              let q := jpegQuality image_format
              let bytes := env.save img2 image_format q
              (.ok (dataUriText image_format bytes),
                .openFile full_path :: revs ++ [.save img2 image_format q])

/-- The handler, source lines 41–115. Returns the result of the call (the
data URI string, or the raised `ValueError` as a `HandlerError`) paired with
the trace of filesystem / PIL calls performed. -/
def handle_read_image_file (env : Env) (args : Args) :
    Except HandlerError String × List Event :=
  let max_size := args.max_size.getD MAX_FILE_SIZE
  match args.path with
  | none => (.error .missingPath, [])
  | some path =>
    if path = "" then (.error .missingPath, [])
    else
      let full_path := resolvePath env path
      if ¬ pyStartsWith full_path env.allowed_directory then
        (.error (.accessDenied full_path env.allowed_directory), [])
      else if ¬ env.pathExists full_path then
        (.error (.notFound full_path), [.checkExists full_path])
      else if ¬ env.isfile full_path then
        (.error (.notAFile full_path),
          [.checkExists full_path, .checkIsFile full_path])
      else
        let file_size := env.getsize full_path
        if file_size > max_size then
          (.error (.tooLarge file_size max_size),
            [.checkExists full_path, .checkIsFile full_path,
              .statSize full_path])
        else
          let pre : List Event :=
            [.checkExists full_path, .checkIsFile full_path,
              .statSize full_path]
          match tryBody env full_path with
          | (.ok text, evs) => (.ok text, pre ++ evs)
          | (.error .unidentifiedImage, evs) =>
              (.error (.invalidImage path), pre ++ evs)
          | (.error (.valueError m), evs) =>
              (.error (.wrapped m), pre ++ evs)
          | (.error (.attributeError m), evs) =>
              (.error (.wrapped m), pre ++ evs)

/- ### Shared helpers for the claim theorems -/

/-- A concrete environment for evaluating the handler: every filesystem query
answers the same way regardless of the path, `Image.open` always yields the
given result, and `save` always yields the given bytes. -/
def testEnv (allowed : String) (ex isf : Bool) (sz : Nat)
    (opened : Except PyExn PyImage) (bytes : List Nat) : Env where
  allowed_directory := allowed
  cwd := "/"
  pathExists := fun _ => ex
  isfile := fun _ => isf
  getsize := fun _ => sz
  openImage := fun _ => opened
  save := fun _ _ _ => bytes

/-- Decidable substring test: some suffix of `hay` starts with `needle`. -/
def containsSub (hay needle : List Char) : Bool :=
  (List.range (hay.length + 1)).any (fun i => needle.isPrefixOf (hay.drop i))

/-- The message `hay` names `needle` somewhere inside it. -/
def containsStr (hay needle : String) : Prop :=
  containsSub hay.data needle.data = true

theorem isPrefixOf_append_self (l r : List Char) :
    l.isPrefixOf (l ++ r) = true := by
  induction l with
  | nil => simp [List.isPrefixOf]
  | cons a as ih => simp [List.isPrefixOf, ih]

/-- Any middle factor of a concatenation is a substring. -/
theorem containsStr_parts (hay pre mid post : String)
    (h : hay.data = pre.data ++ mid.data ++ post.data) :
    containsStr hay mid := by
  unfold containsStr containsSub
  rw [List.any_eq_true]
  refine ⟨pre.data.length, ?_, ?_⟩
  · rw [List.mem_range, h]
    simp
    omega
  · rw [h, List.append_assoc, List.drop_left]
    exact isPrefixOf_append_self _ _

theorem getD_mem_or_default (l : List Char) (n : Nat) (d : Char) :
    l.getD n d ∈ l ∨ l.getD n d = d := by
  induction l generalizing n with
  | nil => right; rfl
  | cons a as ih =>
    cases n with
    | zero => left; simp [List.getD]
    | succ m =>
      rcases ih m with hm | hd
      · left; simp [List.getD] at hm ⊢; right; simpa using hm
      · right; simpa [List.getD] using hd

theorem b64char_ne_newline (n : Nat) : b64char n ≠ '\n' := by
  unfold b64char
  rcases getD_mem_or_default b64alphabet n 'A' with hm | hd
  · intro he
    rw [he] at hm
    revert hm
    decide
  · rw [hd]
    decide

/-- The base64 output never contains a line break (no line wrapping). -/
theorem b64encode_no_newline : ∀ bs : List Nat, '\n' ∉ (b64encode bs).data
  | [] => by simp [b64encode]
  | [a] => by
      simp only [b64encode, String.data_append]
      intro hc
      rcases List.mem_append.mp hc with hl | hr
      · simp at hl
        rcases hl with h1 | h2
        · exact b64char_ne_newline _ h1.symm
        · exact b64char_ne_newline _ h2.symm
      · simp at hr
  | [a, b] => by
      simp only [b64encode, String.data_append]
      intro hc
      rcases List.mem_append.mp hc with hl | hr
      · simp at hl
        rcases hl with h1 | h2 | h3
        · exact b64char_ne_newline _ h1.symm
        · exact b64char_ne_newline _ h2.symm
        · exact b64char_ne_newline _ h3.symm
      · simp at hr
  | a :: b :: c :: rest => by
      have ih := b64encode_no_newline rest
      simp only [b64encode, String.data_append]
      intro hc
      rcases List.mem_append.mp hc with hl | hr
      · simp at hl
        rcases hl with h1 | h2 | h3 | h4
        · exact b64char_ne_newline _ h1.symm
        · exact b64char_ne_newline _ h2.symm
        · exact b64char_ne_newline _ h3.symm
        · exact b64char_ne_newline _ h4.symm
      · exact ih hr

theorem toNat_ofNat_lowercase {n : Nat} (h1 : 97 ≤ n) (h2 : n ≤ 122) :
    (Char.ofNat n).toNat = n := by
  interval_cases n <;> rfl

theorem pyCharLower_fixed (c : Char) :
    pyCharLower (pyCharLower c) = pyCharLower c := by
  unfold pyCharLower
  by_cases h : 65 ≤ c.toNat ∧ c.toNat ≤ 90
  · have hv : (Char.ofNat (c.toNat + 32)).toNat = c.toNat + 32 :=
      toNat_ofNat_lowercase (by omega) (by omega)
    rw [if_pos h, if_neg (by rw [hv]; omega)]
  · rw [if_neg h, if_neg h]

theorem pyLower_idem (s : String) : pyLower (pyLower s) = pyLower s := by
  unfold pyLower
  simp [List.map_map, Function.comp_def, pyCharLower_fixed]

/-- A format label produced by `determineFormat` is already lowercase. -/
theorem determineFormat_ok_lower {fa : Option String} {fp fmt : String}
    (h : determineFormat fa fp = .ok fmt) : pyLower fmt = fmt := by
  unfold determineFormat at h
  match fa with
  | none => exact absurd h (by simp)
  | some f =>
    simp only at h
    split at h
    · split at h
      · exact Except.ok.inj h ▸ rfl
      · split at h
        · rename_i hcond
          have he := Except.ok.inj h
          rcases hcond with h1 | h2 | h3
          · rw [← he, h1]; rfl
          · rw [← he, h2]; rfl
          · rw [← he, h3]; rfl
        · exact absurd h (by simp)
    · rename_i hne
      have he := Except.ok.inj h
      rw [← he]
      exact pyLower_idem f

/-- Inversion for a successful run of the `try` block. -/
theorem tryBody_ok_inv {env : Env} {fp t : String} {evs : List Event}
    (h : tryBody env fp = (.ok t, evs)) :
    ∃ img img2 fmt revs,
      env.openImage fp = .ok img ∧
      determineFormat img.format fp = .ok fmt ∧
      resizeStage img = (.ok img2, revs) ∧
      t = dataUriText fmt (env.save img2 fmt (jpegQuality fmt)) ∧
      evs = .openFile fp :: revs ++ [.save img2 fmt (jpegQuality fmt)] := by
  unfold tryBody at h
  split at h
  · exact absurd h (by simp)
  · rename_i img hopen
    split at h
    · exact absurd h (by simp)
    · rename_i fmt hfmt
      split at h
      · exact absurd h (by simp)
      · rename_i img2 revs hrs
        dsimp only at h
        simp only [Prod.mk.injEq, Except.ok.injEq] at h
        exact ⟨img, img2, fmt, revs, hopen, hfmt, hrs, h.1.symm, h.2.symm⟩

/-- The resize stage records at most a `resize` call, never a `save`. -/
theorem resizeStage_no_save {img : PyImage} {r : Except PyExn PyImage}
    {revs : List Event} (h : resizeStage img = (r, revs))
    (i : PyImage) (f : String) (q : Option Nat) : Event.save i f q ∉ revs := by
  unfold resizeStage at h
  dsimp only at h
  split at h
  · split at h <;>
      · simp only [Prod.mk.injEq] at h
        rw [← h.2]
        simp
  · simp only [Prod.mk.injEq] at h
    rw [← h.2]
    simp

/-- A failed run of the `try` block performs no `save` call. -/
theorem tryBody_error_no_save {env : Env} {fp : String} {e : PyExn}
    {evs : List Event} (h : tryBody env fp = (.error e, evs))
    (img : PyImage) (fmt : String) (q : Option Nat) :
    Event.save img fmt q ∉ evs := by
  unfold tryBody at h
  split at h
  · simp only [Prod.mk.injEq] at h
    rw [← h.2]
    simp
  · rename_i img0 hopen
    split at h
    · simp only [Prod.mk.injEq] at h
      rw [← h.2]
      simp
    · rename_i fmt0 hfmt
      split at h
      · rename_i e0 revs0 hrs
        simp only [Prod.mk.injEq] at h
        rw [← h.2]
        intro hmem
        rcases List.mem_cons.mp hmem with hl | hr
        · exact absurd hl (by simp)
        · exact resizeStage_no_save hrs img fmt q hr
      · rename_i img2 revs0 hrs
        dsimp only at h
        exact absurd h (by simp)

/-- Inversion for a successful run of the handler. -/
theorem handle_ok_inv {env : Env} {args : Args} {t : String} {evs : List Event}
    (h : handle_read_image_file env args = (.ok t, evs)) :
    ∃ p img img2 fmt revs,
      args.path = some p ∧ p ≠ "" ∧
      env.openImage (resolvePath env p) = .ok img ∧
      determineFormat img.format (resolvePath env p) = .ok fmt ∧
      resizeStage img = (.ok img2, revs) ∧
      t = dataUriText fmt (env.save img2 fmt (jpegQuality fmt)) ∧
      evs = [.checkExists (resolvePath env p), .checkIsFile (resolvePath env p),
        .statSize (resolvePath env p)]
        ++ (.openFile (resolvePath env p) :: revs
            ++ [.save img2 fmt (jpegQuality fmt)]) := by
  rcases args with ⟨op, msz⟩
  rcases op with _ | p
  · exact absurd h (by simp [handle_read_image_file])
  · unfold handle_read_image_file at h
    dsimp only at h
    split at h
    · exact absurd h (by simp)
    · rename_i hne
      split at h
      · exact absurd h (by simp)
      · split at h
        · exact absurd h (by simp)
        · split at h
          · exact absurd h (by simp)
          · split at h
            · exact absurd h (by simp)
            · split at h
              · rename_i text tevs htry
                simp only [Prod.mk.injEq, Except.ok.injEq] at h
                obtain ⟨img, img2, fmt, revs, h1, h2, h3, h4, h5⟩ :=
                  tryBody_ok_inv (show tryBody env (resolvePath env p)
                    = (.ok t, tevs) by rw [htry, h.1])
                refine ⟨p, img, img2, fmt, revs, rfl, hne, h1, h2, h3, h4, ?_⟩
                rw [← h.2, h5]
              · exact absurd h (by simp)
              · exact absurd h (by simp)
              · exact absurd h (by simp)

/-- A failed run of the handler performs no `save` call. -/
theorem handle_error_no_save {env : Env} {args : Args} {e : HandlerError}
    {evs : List Event} (h : handle_read_image_file env args = (.error e, evs))
    (img : PyImage) (fmt : String) (q : Option Nat) :
    Event.save img fmt q ∉ evs := by
  rcases args with ⟨op, msz⟩
  rcases op with _ | p
  · have h2 : evs = [] := by
      have := congrArg Prod.snd h
      simpa [handle_read_image_file] using this.symm
    rw [h2]
    simp
  · unfold handle_read_image_file at h
    dsimp only at h
    split at h
    · simp only [Prod.mk.injEq] at h
      rw [← h.2]
      simp
    · split at h
      · simp only [Prod.mk.injEq] at h
        rw [← h.2]
        simp
      · split at h
        · simp only [Prod.mk.injEq] at h
          rw [← h.2]
          simp
        · split at h
          · simp only [Prod.mk.injEq] at h
            rw [← h.2]
            simp
          · split at h
            · simp only [Prod.mk.injEq] at h
              rw [← h.2]
              simp
            · split at h
              · exact absurd h (by simp)
              · rename_i tevs htry
                simp only [Prod.mk.injEq] at h
                rw [← h.2]
                intro hmem
                rcases List.mem_append.mp hmem with hl | hr
                · simp at hl
                · exact tryBody_error_no_save htry img fmt q hr
              · rename_i m tevs htry
                simp only [Prod.mk.injEq] at h
                rw [← h.2]
                intro hmem
                rcases List.mem_append.mp hmem with hl | hr
                · simp at hl
                · exact tryBody_error_no_save htry img fmt q hr
              · rename_i m tevs htry
                simp only [Prod.mk.injEq] at h
                rw [← h.2]
                intro hmem
                rcases List.mem_append.mp hmem with hl | hr
                · simp at hl
                · exact tryBody_error_no_save htry img fmt q hr

/-- Out-of-range widths are resized to `targetWidth`, and any image the
resize stage lets through has width in range and positive height. -/
theorem resizeStage_ok_bounds {img img2 : PyImage} {revs : List Event}
    (hh : 1 ≤ img.height) (h : resizeStage img = (.ok img2, revs)) :
    MIN_WIDTH ≤ img2.width ∧ img2.width ≤ MAX_WIDTH ∧ 1 ≤ img2.height := by
  unfold resizeStage at h
  dsimp only at h
  split at h
  · split at h
    · exact absurd h (by simp)
    · rename_i hnz
      simp only [Prod.mk.injEq, Except.ok.injEq] at h
      rw [← h.1]
      simp only [not_or] at hnz
      constructor
      · unfold targetWidth
        split <;> simp [MIN_WIDTH, MAX_WIDTH]
      · constructor
        · unfold targetWidth
          split <;> simp [MIN_WIDTH, MAX_WIDTH]
        · show 1 ≤ newHeight img.height (targetWidth img.width) img.width
          omega
  · rename_i hrange
    simp only [Prod.mk.injEq, Except.ok.injEq] at h
    rw [← h.1]
    simp only [not_or, not_lt] at hrange
    exact ⟨hrange.2, hrange.1, hh⟩

/- ### The claims -/

/-- C1: the claim states the containment check is boundary-aware, so that a
canonical path under a sibling directory sharing AllowedRoot as a mere string
prefix (AllowedRoot `/data`, path `/data2/x.png`) fails with AccessDenied
before any file access. Evaluating the code at exactly that input refutes
this: the raw `startswith` check at source line 56 accepts `/data2/x.png`,
the file is statted, read and decoded, and the call returns a data URI. -/
theorem claim_C1_sibling_dir_accepted :
    handle_read_image_file
      (testEnv "/data" true true 10 (.ok ⟨400, 100, some "PNG"⟩)
        [137, 80, 78])
      ⟨some "/data2/x.png", none⟩ =
    (.ok "data:image/png;base64,iVBO",
      [.checkExists "/data2/x.png", .checkIsFile "/data2/x.png",
        .statSize "/data2/x.png", .openFile "/data2/x.png",
        .save ⟨400, 100, some "PNG"⟩ "png" none]) := by rfl

/-- C2 counterexample: the relative path `../sandbox2/x.png` under
AllowedRoot `/sandbox` joins and canonicalizes to `/sandbox2/x.png`, which
resolves outside the AllowedRoot directory; yet the call does not fail with
AccessDenied — the raw string-prefix check passes and the pipeline proceeds
to the filesystem (NotFound here), refuting the claim's universal
"resolves outside ⟹ AccessDenied". -/
theorem claim_C2_sibling_escape_not_denied :
    abspath "/" (joinPath "/sandbox" "../sandbox2/x.png") = "/sandbox2/x.png"
    ∧ handle_read_image_file
        (testEnv "/sandbox" false false 0 (.error .unidentifiedImage) [])
        ⟨some "../sandbox2/x.png", none⟩ =
      (.error (.notFound "/sandbox2/x.png"),
        [.checkExists "/sandbox2/x.png"]) := ⟨rfl, rfl⟩

/-- C2 (amended): for every relative caller path, the handler joins it to
AllowedRoot and then canonicalizes (resolving `.` and `..` segments) before
the containment check; whenever the canonical joined form does not have
AllowedRoot as a raw string prefix, the call fails with AccessDenied and
performs no filesystem or decode call at all (empty event trace). -/
theorem claim_C2_relative_join_then_check (env : Env) (p : String)
    (msz : Option Nat) (hrel : isabs p = false) (hne : p ≠ "")
    (hout : pyStartsWith (abspath env.cwd (joinPath env.allowed_directory p))
      env.allowed_directory = false) :
    handle_read_image_file env ⟨some p, msz⟩ =
      (.error (.accessDenied
        (abspath env.cwd (joinPath env.allowed_directory p))
        env.allowed_directory), []) := by
  unfold handle_read_image_file resolvePath
  simp [hne, hrel, hout]

/-- C2 witness, Scenario D: `"../../etc/passwd"` under AllowedRoot
`/sandbox` resolves to `/etc/passwd` and is denied with an empty trace. -/
theorem claim_C2_witness :
    handle_read_image_file
      (testEnv "/sandbox" true true 10 (.ok ⟨400, 100, some "PNG"⟩)
        [137, 80, 78])
      ⟨some "../../etc/passwd", none⟩ =
      (.error (.accessDenied "/etc/passwd" "/sandbox"), []) :=
  claim_C2_relative_join_then_check
    (testEnv "/sandbox" true true 10 (.ok ⟨400, 100, some "PNG"⟩)
      [137, 80, 78])
    "../../etc/passwd" none (by rfl) (by decide) (by rfl)

/-- C3: whenever the file's size exceeds the ceiling (the caller-supplied
`max_size`, defaulting to `MAX_FILE_SIZE` = 104857600 bytes), the call fails
with TooLarge and the trace contains exactly the three metadata queries — no
`openFile` (decode) event ever happens. -/
theorem claim_C3_size_gate_before_decode (env : Env) (p : String)
    (msz : Option Nat) (hne : p ≠ "")
    (hacc : pyStartsWith (resolvePath env p) env.allowed_directory = true)
    (hex : env.pathExists (resolvePath env p) = true)
    (hisf : env.isfile (resolvePath env p) = true)
    (hsz : env.getsize (resolvePath env p) > msz.getD MAX_FILE_SIZE) :
    handle_read_image_file env ⟨some p, msz⟩ =
      (.error (.tooLarge (env.getsize (resolvePath env p))
        (msz.getD MAX_FILE_SIZE)),
        [.checkExists (resolvePath env p), .checkIsFile (resolvePath env p),
          .statSize (resolvePath env p)]) ∧
    MAX_FILE_SIZE = 104857600 := by
  constructor
  · unfold handle_read_image_file
    simp [hne, hacc, hex, hisf, hsz]
  · rfl

/-- C3 witness: a 10-byte file against a 5-byte ceiling is rejected as
TooLarge with only the three metadata queries in the trace. -/
theorem claim_C3_witness :
    handle_read_image_file
      (testEnv "/s" true true 10 (.ok ⟨400, 100, some "PNG"⟩) [])
      ⟨some "/s/a.png", some 5⟩ =
      (.error (.tooLarge 10 5),
        [.checkExists "/s/a.png", .checkIsFile "/s/a.png",
          .statSize "/s/a.png"]) ∧
    MAX_FILE_SIZE = 104857600 :=
  claim_C3_size_gate_before_decode
    (testEnv "/s" true true 10 (.ok ⟨400, 100, some "PNG"⟩) [])
    "/s/a.png" (some 5) (by decide) (by rfl) (by rfl) (by rfl) (by decide)

/-- C4: the resize stage scales to width MAX_WIDTH = 800 when the width
exceeds 800, to MIN_WIDTH = 20 when the width is below 20, and passes an
image with width in [20, 800] through completely unchanged, with no resize
call recorded — so the normalizer is the identity on in-range images. -/
theorem claim_C4_resize_policy (w h : Nat) (f : Option String) :
    (MIN_WIDTH ≤ w → w ≤ MAX_WIDTH →
      resizeStage ⟨w, h, f⟩ = (.ok ⟨w, h, f⟩, [])) ∧
    (w > MAX_WIDTH →
      (resizeStage ⟨w, h, f⟩).2 = [.resize MAX_WIDTH (newHeight h MAX_WIDTH w)]
      ∧ ∀ img2 revs, resizeStage ⟨w, h, f⟩ = (.ok img2, revs) →
          img2.width = MAX_WIDTH) ∧
    (w < MIN_WIDTH →
      (resizeStage ⟨w, h, f⟩).2 = [.resize MIN_WIDTH (newHeight h MIN_WIDTH w)]
      ∧ ∀ img2 revs, resizeStage ⟨w, h, f⟩ = (.ok img2, revs) →
          img2.width = MIN_WIDTH) := by
  refine ⟨?_, ?_, ?_⟩
  · intro h1 h2
    unfold resizeStage
    rw [if_neg (by dsimp only; omega)]
  · intro hgt
    have htw : targetWidth w = MAX_WIDTH := by
      unfold targetWidth
      rw [if_pos hgt]
    constructor
    · unfold resizeStage
      rw [if_pos (by dsimp only; exact Or.inl hgt)]
      dsimp only
      rw [htw]
      split <;> rfl
    · intro img2 revs hok
      unfold resizeStage at hok
      rw [if_pos (by dsimp only; exact Or.inl hgt)] at hok
      dsimp only at hok
      rw [htw] at hok
      split at hok
      · exact absurd hok (by simp)
      · simp only [Prod.mk.injEq, Except.ok.injEq] at hok
        rw [← hok.1]
  · intro hlt
    have htw : targetWidth w = MIN_WIDTH := by
      unfold targetWidth
      rw [if_neg (by simp only [MIN_WIDTH, MAX_WIDTH] at hlt ⊢; omega)]
    constructor
    · unfold resizeStage
      rw [if_pos (by dsimp only; exact Or.inr hlt)]
      dsimp only
      rw [htw]
      split <;> rfl
    · intro img2 revs hok
      unfold resizeStage at hok
      rw [if_pos (by dsimp only; exact Or.inr hlt)] at hok
      dsimp only at hok
      rw [htw] at hok
      split at hok
      · exact absurd hok (by simp)
      · simp only [Prod.mk.injEq, Except.ok.injEq] at hok
        rw [← hok.1]

/-- C4 witness: a 400-wide image passes through unchanged; a 2000-wide image
is resized to width 800; a 10-wide image is resized to width 20. -/
theorem claim_C4_witness :
    resizeStage ⟨400, 100, some "png"⟩ = (.ok ⟨400, 100, some "png"⟩, []) ∧
    (resizeStage ⟨2000, 500, none⟩).2 = [.resize 800 (newHeight 500 800 2000)]
    ∧ (resizeStage ⟨10, 10, none⟩).2 = [.resize 20 (newHeight 10 20 10)] :=
  ⟨(claim_C4_resize_policy 400 100 (some "png")).1 (by decide) (by decide),
    ((claim_C4_resize_policy 2000 500 none).2.1 (by decide)).1,
    ((claim_C4_resize_policy 10 10 none).2.2 (by decide)).1⟩

/-- C5 counterexample: resizing a 2000-wide, 9-high image to width 800 gives
height `int(9 * (800 / 2000)) = 3` in the code, while the nearest integer to
the exact rational 9·800/2000 = 3.6 is 4. -/
theorem claim_C5_cex :
    newHeight 9 800 2000 = 3 ∧ round ((9 * 800 : ℚ) / 2000) = 4 ∧
    (3 : ℕ) ≠ 4 := by
  refine ⟨rfl, ?_, by decide⟩
  norm_num [round_eq]

/-- C5 (amended): the output height of a resize is Python's `int()`
truncation of the IEEE-binary64 product H0 × (Wt / W0) — `newHeightFloat` —
not the nearest integer to the exact rational H0·Wt/W0. Downscaling a 2000×9
image to width 800 yields height 3 (truncating the double
3.6000000000000001) while the nearest integer to 3.6 is 4. The double
rounding can even fall below the exact floor: a 39200×98 image yields height
1 (truncating 1.9999999999999998) although 98·800/39200 = 2 exactly, and a
39200×49 image yields 0 although the exact floor is 1. Where ratio and
product are exactly representable the binary64 and exact arithmetics agree,
as in the spec's Scenario B (2000×500 → 200), Scenario C (10×10 → 20) and
the 2000×1 case (→ 0). -/
theorem claim_C5_height_truncates_double :
    (newHeightFloat 9 800 2000 = 3 ∧ round ((9 * 800 : ℚ) / 2000) = 4) ∧
    (newHeightFloat 98 800 39200 = 1 ∧ newHeight 98 800 39200 = 2) ∧
    (newHeightFloat 49 800 39200 = 0 ∧ newHeight 49 800 39200 = 1) ∧
    (newHeightFloat 500 800 2000 = 200 ∧ newHeight 500 800 2000 = 200) ∧
    (newHeightFloat 10 20 10 = 20 ∧ newHeight 10 20 10 = 20) ∧
    (newHeightFloat 1 800 2000 = 0 ∧ newHeight 1 800 2000 = 0) := by
  refine ⟨⟨by decide, ?_⟩, ⟨by decide, rfl⟩, ⟨by decide, rfl⟩,
    ⟨by decide, rfl⟩, ⟨by decide, rfl⟩, ⟨by decide, rfl⟩⟩
  norm_num [round_eq]

/-- C6: the claim says that whenever decoding succeeds but yields no usable
format label, the format is derived from the file extension. Evaluating the
code at a decode result whose `format` attribute is None (the Python value
for a missing label) refutes this: `img.format.lower()` at source line 73
raises AttributeError before the fallback check at line 74 can run, and the
caller sees the generic wrapped error, not the `png` extension fallback. The
remaining conjuncts show the extension fallback itself (reachable only for a
non-None falsy label, i.e. the empty string) does implement exactly the
claimed map {jpg/jpeg→jpeg, png→png, gif→gif, webp→webp} and rejects every
other extension as unsupported. -/
theorem claim_C6_none_format_crashes :
    handle_read_image_file
      (testEnv "/s" true true 10 (.ok ⟨400, 100, none⟩) [137, 80, 78])
      ⟨some "/s/x.png", none⟩ =
      (.error (.wrapped "'NoneType' object has no attribute 'lower'"),
        [.checkExists "/s/x.png", .checkIsFile "/s/x.png",
          .statSize "/s/x.png", .openFile "/s/x.png"]) ∧
    determineFormat none "/s/x.png" =
      .error (.attributeError "'NoneType' object has no attribute 'lower'") ∧
    determineFormat (some "") "/s/x.jpg" = .ok "jpeg" ∧
    determineFormat (some "") "/s/x.jpeg" = .ok "jpeg" ∧
    determineFormat (some "") "/s/x.png" = .ok "png" ∧
    determineFormat (some "") "/s/x.gif" = .ok "gif" ∧
    determineFormat (some "") "/s/x.webp" = .ok "webp" ∧
    determineFormat (some "") "/s/x.txt" =
      .error (.valueError "Unsupported image format: txt") :=
  ⟨rfl, rfl, rfl, rfl, rfl, rfl, rfl, rfl⟩

/-- C9: an empty-string path is treated exactly like an absent path — both
fail with the MissingPath error ("path must be provided") before any path
resolution or file access (empty event trace), because `if not path` tests
falsiness rather than key presence. -/
theorem claim_C9_empty_path_is_missing (env : Env) (msz : Option Nat) :
    handle_read_image_file env ⟨some "", msz⟩ = (.error .missingPath, []) ∧
    handle_read_image_file env ⟨none, msz⟩ = (.error .missingPath, []) ∧
    HandlerError.missingPath.message = "path must be provided" :=
  ⟨rfl, rfl, rfl⟩

/-- C7: on every successful call the returned text is exactly
`"data:image/" ++ format ++ ";base64," ++ payload`, where `format` is the
lowercase format label the run determined and `payload` is the standard
base64 encoding (`b64encode`, a total function) of the bytes produced by
re-encoding the image that was saved, with no line wrapping (no newline
character occurs in the payload). -/
theorem claim_C7_data_uri_shape (env : Env) (args : Args) (t : String)
    (evs : List Event) (h : handle_read_image_file env args = (.ok t, evs)) :
    ∃ img2 fmt, Event.save img2 fmt (jpegQuality fmt) ∈ evs ∧
      t = "data:image/" ++ fmt ++ ";base64,"
        ++ b64encode (env.save img2 fmt (jpegQuality fmt)) ∧
      pyLower fmt = fmt ∧
      '\n' ∉ (b64encode (env.save img2 fmt (jpegQuality fmt))).data := by
  obtain ⟨p, img, img2, fmt, revs, hpath, hne, hopen, hfmt, hrs, ht, hevs⟩ :=
    handle_ok_inv h
  refine ⟨img2, fmt, ?_, ?_, determineFormat_ok_lower hfmt,
    b64encode_no_newline _⟩
  · rw [hevs]
    simp
  · rw [ht]
    rfl

/-- C7 witness: a concrete successful run (a 400×100 PNG re-encoded to the
bytes `[137, 80, 78]`) satisfies the data-URI shape statement. -/
theorem claim_C7_witness :
    ∃ img2 fmt,
      Event.save img2 fmt (jpegQuality fmt) ∈
        ([.checkExists "/sandbox/logo.png", .checkIsFile "/sandbox/logo.png",
          .statSize "/sandbox/logo.png", .openFile "/sandbox/logo.png",
          .save ⟨400, 100, some "PNG"⟩ "png" none] : List Event) ∧
      "data:image/png;base64,iVBO" = "data:image/" ++ fmt ++ ";base64,"
        ++ b64encode ((testEnv "/sandbox" true true 10
            (.ok ⟨400, 100, some "PNG"⟩) [137, 80, 78]).save img2 fmt
              (jpegQuality fmt)) ∧
      pyLower fmt = fmt ∧
      '\n' ∉ (b64encode ((testEnv "/sandbox" true true 10
          (.ok ⟨400, 100, some "PNG"⟩) [137, 80, 78]).save img2 fmt
            (jpegQuality fmt))).data :=
  claim_C7_data_uri_shape
    (testEnv "/sandbox" true true 10 (.ok ⟨400, 100, some "PNG"⟩)
      [137, 80, 78])
    ⟨some "/sandbox/logo.png", none⟩ "data:image/png;base64,iVBO"
    [.checkExists "/sandbox/logo.png", .checkIsFile "/sandbox/logo.png",
      .statSize "/sandbox/logo.png", .openFile "/sandbox/logo.png",
      .save ⟨400, 100, some "PNG"⟩ "png" none]
    (by rfl)

/-- C10: (i) in every environment whose decoder only yields images of
positive height, any image the handler saves (and hence returns as a data
URI) has width in [MIN_WIDTH, MAX_WIDTH] and height at least 1; (ii) at the
concrete failing input — a 2000×1 image needing a downscale to width 800 —
the truncated height is 0, the resize call fails inside the try block, and
the call surfaces the wrapped error
"Error reading image file: height and width must be > 0" instead of
returning a data URI. -/
theorem claim_C10_success_bounds :
    (∀ env args res evs img fmt q,
      (∀ fp i, env.openImage fp = .ok i → 1 ≤ i.height) →
      handle_read_image_file env args = (res, evs) →
      Event.save img fmt q ∈ evs →
      MIN_WIDTH ≤ img.width ∧ img.width ≤ MAX_WIDTH ∧ 1 ≤ img.height) ∧
    newHeight 1 800 2000 = 0 ∧
    handle_read_image_file
      (testEnv "/data" true true 10 (.ok ⟨2000, 1, some "PNG"⟩) [])
      ⟨some "/data/x.png", none⟩ =
      (.error (.wrapped "height and width must be > 0"),
        [.checkExists "/data/x.png", .checkIsFile "/data/x.png",
          .statSize "/data/x.png", .openFile "/data/x.png",
          .resize 800 0]) ∧
    HandlerError.message (.wrapped "height and width must be > 0")
      = "Error reading image file: height and width must be > 0" := by
  refine ⟨?_, rfl, rfl, rfl⟩
  intro env args res evs img fmt q hwf h hmem
  cases res with
  | error e => exact absurd hmem (handle_error_no_save h img fmt q)
  | ok t =>
    obtain ⟨p, img0, img2, fmt0, revs, hpath, hne, hopen, hfmt, hrs, ht, hevs⟩
      := handle_ok_inv h
    rw [hevs] at hmem
    have hns := resizeStage_no_save hrs img fmt q
    simp only [List.mem_append, List.mem_cons, List.not_mem_nil, or_false,
      List.mem_singleton] at hmem
    rcases hmem with (h1 | h1 | h1) | (h1 | h1) | h1
    · exact absurd h1 (by simp)
    · exact absurd h1 (by simp)
    · exact absurd h1 (by simp)
    · exact absurd h1 (by simp)
    · exact absurd h1 hns
    · have hbounds := resizeStage_ok_bounds (hwf _ _ hopen) hrs
      have h2 : img = img2 := by
        have := Event.save.injEq img fmt q img2 fmt0 (jpegQuality fmt0)
        exact ((this ▸ h1 : _ ∧ _ ∧ _)).1
      rw [h2]
      exact hbounds

/-- C10 witness: the bounds statement applied to a concrete successful run
(a 400×100 PNG passed through unchanged). -/
theorem claim_C10_witness :
    MIN_WIDTH ≤ (PyImage.mk 400 100 (some "PNG")).width ∧
    (PyImage.mk 400 100 (some "PNG")).width ≤ MAX_WIDTH ∧
    1 ≤ (PyImage.mk 400 100 (some "PNG")).height :=
  claim_C10_success_bounds.1
    (testEnv "/t" true true 10 (.ok ⟨400, 100, some "PNG"⟩) [])
    ⟨some "/t/logo.png", none⟩ (.ok "data:image/png;base64,")
    [.checkExists "/t/logo.png", .checkIsFile "/t/logo.png",
      .statSize "/t/logo.png", .openFile "/t/logo.png",
      .save ⟨400, 100, some "PNG"⟩ "png" none]
    (PyImage.mk 400 100 (some "PNG")) "png" none
    (fun fp i hi => by cases hi; decide) (by rfl) (by simp)

/-- C8 counterexample: for an input whose condition is the enumerated
UnsupportedFormat kind — decode succeeds but yields no usable format label
(None), and the extension `txt` is unrecognized — the surfaced error is the
generic wrapped AttributeError message, which does not name the condition:
"Unsupported image format" does not occur in it. -/
theorem claim_C8_cex :
    handle_read_image_file
      (testEnv "/s" true true 10 (.ok ⟨400, 100, none⟩) [])
      ⟨some "/s/x.txt", none⟩ =
      (.error (.wrapped "'NoneType' object has no attribute 'lower'"),
        [.checkExists "/s/x.txt", .checkIsFile "/s/x.txt",
          .statSize "/s/x.txt", .openFile "/s/x.txt"]) ∧
    containsSub (HandlerError.message
        (.wrapped "'NoneType' object has no attribute 'lower'")).data
      ("Unsupported image format").data = false :=
  ⟨rfl, by decide⟩

/-- C8 (amended): every failing call whose condition is one of the
enumerated error kinds surfaces the specific error for that condition — with
the proviso forced by the counterexample that for the UnsupportedFormat
condition the decode stage must have yielded an actual string format label
(empty after lowering), since a None label crashes into a generic wrapped
error first. The final conjunct shows each specific error's message names
its condition and the relevant values. (The UnsupportedFormat error text
survives inside the generic wrapper as
"Error reading image file: Unsupported image format: <ext>".) -/
theorem claim_C8_errors_name_their_condition (env : Env) :
    (∀ msz, (handle_read_image_file env ⟨none, msz⟩).1 = .error .missingPath
      ∧ (handle_read_image_file env ⟨some "", msz⟩).1 =
          .error .missingPath) ∧
    (∀ p msz, p ≠ "" →
      pyStartsWith (resolvePath env p) env.allowed_directory = false →
      (handle_read_image_file env ⟨some p, msz⟩).1 =
        .error (.accessDenied (resolvePath env p) env.allowed_directory)) ∧
    (∀ p msz, p ≠ "" →
      pyStartsWith (resolvePath env p) env.allowed_directory = true →
      env.pathExists (resolvePath env p) = false →
      (handle_read_image_file env ⟨some p, msz⟩).1 =
        .error (.notFound (resolvePath env p))) ∧
    (∀ p msz, p ≠ "" →
      pyStartsWith (resolvePath env p) env.allowed_directory = true →
      env.pathExists (resolvePath env p) = true →
      env.isfile (resolvePath env p) = false →
      (handle_read_image_file env ⟨some p, msz⟩).1 =
        .error (.notAFile (resolvePath env p))) ∧
    (∀ p msz, p ≠ "" →
      pyStartsWith (resolvePath env p) env.allowed_directory = true →
      env.pathExists (resolvePath env p) = true →
      env.isfile (resolvePath env p) = true →
      env.getsize (resolvePath env p) > msz.getD MAX_FILE_SIZE →
      (handle_read_image_file env ⟨some p, msz⟩).1 =
        .error (.tooLarge (env.getsize (resolvePath env p))
          (msz.getD MAX_FILE_SIZE))) ∧
    (∀ p msz, p ≠ "" →
      pyStartsWith (resolvePath env p) env.allowed_directory = true →
      env.pathExists (resolvePath env p) = true →
      env.isfile (resolvePath env p) = true →
      ¬ env.getsize (resolvePath env p) > msz.getD MAX_FILE_SIZE →
      env.openImage (resolvePath env p) = .error .unidentifiedImage →
      (handle_read_image_file env ⟨some p, msz⟩).1 =
        .error (.invalidImage p)) ∧
    (∀ p msz img f ext, p ≠ "" →
      pyStartsWith (resolvePath env p) env.allowed_directory = true →
      env.pathExists (resolvePath env p) = true →
      env.isfile (resolvePath env p) = true →
      ¬ env.getsize (resolvePath env p) > msz.getD MAX_FILE_SIZE →
      env.openImage (resolvePath env p) = .ok img →
      img.format = some f → pyLower f = "" →
      lstripDot (pyLower (splitextExt (resolvePath env p))) = ext →
      ¬ (ext = "jpg" ∨ ext = "jpeg") →
      ¬ (ext = "png" ∨ ext = "gif" ∨ ext = "webp") →
      (handle_read_image_file env ⟨some p, msz⟩).1 =
        .error (.wrapped ("Unsupported image format: " ++ ext))) ∧
    (∀ full allowed pth ext : String, ∀ sz lim : Nat,
      containsStr (HandlerError.accessDenied full allowed).message
        "Access denied" ∧
      containsStr (HandlerError.accessDenied full allowed).message full ∧
      containsStr (HandlerError.accessDenied full allowed).message allowed ∧
      containsStr (HandlerError.notFound full).message
        "File does not exist" ∧
      containsStr (HandlerError.notFound full).message full ∧
      containsStr (HandlerError.notAFile full).message
        "Path is not a file" ∧
      containsStr (HandlerError.notAFile full).message full ∧
      containsStr (HandlerError.tooLarge sz lim).message
        "exceeds maximum allowed size" ∧
      containsStr (HandlerError.tooLarge sz lim).message (toString sz) ∧
      containsStr (HandlerError.tooLarge sz lim).message (toString lim) ∧
      containsStr (HandlerError.invalidImage pth).message
        "File is not a valid image" ∧
      containsStr (HandlerError.invalidImage pth).message pth ∧
      containsStr
        (HandlerError.wrapped ("Unsupported image format: " ++ ext)).message
        "Unsupported image format" ∧
      containsStr
        (HandlerError.wrapped ("Unsupported image format: " ++ ext)).message
        ext) := by
  refine ⟨fun msz => ⟨rfl, rfl⟩, ?_, ?_, ?_, ?_, ?_, ?_, ?_⟩
  · intro p msz hne hacc
    unfold handle_read_image_file
    simp [hne, hacc]
  · intro p msz hne hacc hex
    unfold handle_read_image_file
    simp [hne, hacc, hex]
  · intro p msz hne hacc hex hisf
    unfold handle_read_image_file
    simp [hne, hacc, hex, hisf]
  · intro p msz hne hacc hex hisf hsz
    unfold handle_read_image_file
    simp [hne, hacc, hex, hisf, hsz]
  · intro p msz hne hacc hex hisf hsz hopen
    have htry : tryBody env (resolvePath env p) =
        (.error .unidentifiedImage, [.openFile (resolvePath env p)]) := by
      unfold tryBody
      simp [hopen]
    unfold handle_read_image_file
    simp [hne, hacc, hex, hisf, hsz, htry]
  · intro p msz img f ext hne hacc hex hisf hsz hopen hf hlow hext hj hpgw
    have hdf : determineFormat img.format (resolvePath env p) =
        .error (.valueError ("Unsupported image format: " ++ ext)) := by
      rw [hf]
      unfold determineFormat
      simp [hlow, hext, hj, hpgw]
    have htry : tryBody env (resolvePath env p) =
        (.error (.valueError ("Unsupported image format: " ++ ext)),
          [.openFile (resolvePath env p)]) := by
      unfold tryBody
      simp [hopen, hdf]
    unfold handle_read_image_file
    simp [hne, hacc, hex, hisf, hsz, htry]
  · intro full allowed pth ext sz lim
    refine ⟨?_, ?_, ?_, ?_, ?_, ?_, ?_, ?_, ?_, ?_, ?_, ?_, ?_, ?_⟩
    · exact containsStr_parts _ "" "Access denied"
        (": Path (" ++ full ++ ") must be within allowed directory ("
          ++ allowed ++ ")")
        (by simp [HandlerError.message, String.data_append])
    · exact containsStr_parts _ "Access denied: Path (" full
        (") must be within allowed directory (" ++ allowed ++ ")")
        (by simp [HandlerError.message, String.data_append])
    · exact containsStr_parts _
        ("Access denied: Path (" ++ full ++ ") must be within allowed directory (")
        allowed ")" (by simp [HandlerError.message, String.data_append])
    · exact containsStr_parts _ "" "File does not exist" (": " ++ full)
        (by simp [HandlerError.message, String.data_append])
    · exact containsStr_parts _ "File does not exist: " full ""
        (by simp [HandlerError.message, String.data_append])
    · exact containsStr_parts _ "" "Path is not a file" (": " ++ full)
        (by simp [HandlerError.message, String.data_append])
    · exact containsStr_parts _ "Path is not a file: " full ""
        (by simp [HandlerError.message, String.data_append])
    · exact containsStr_parts _ ("File size (" ++ toString sz ++ " bytes) ")
        "exceeds maximum allowed size"
        (" (" ++ toString lim ++ " bytes)")
        (by simp [HandlerError.message, String.data_append])
    · exact containsStr_parts _ "File size (" (toString sz)
        (" bytes) exceeds maximum allowed size (" ++ toString lim ++ " bytes)")
        (by simp [HandlerError.message, String.data_append])
    · exact containsStr_parts _
        ("File size (" ++ toString sz ++ " bytes) exceeds maximum allowed size (")
        (toString lim) " bytes)"
        (by simp [HandlerError.message, String.data_append])
    · exact containsStr_parts _ "" "File is not a valid image" (": " ++ pth)
        (by simp [HandlerError.message, String.data_append])
    · exact containsStr_parts _ "File is not a valid image: " pth ""
        (by simp [HandlerError.message, String.data_append])
    · exact containsStr_parts _ "Error reading image file: "
        "Unsupported image format" (": " ++ ext)
        (by simp [HandlerError.message, String.data_append])
    · exact containsStr_parts _
        "Error reading image file: Unsupported image format: " ext ""
        (by simp [HandlerError.message, String.data_append])

/-- C8 witness: two of the amended conjuncts applied at concrete inputs — a
missing file surfaces NotFound for the resolved path, and an unrecognized
extension with an empty (string) format label surfaces the wrapped
"Unsupported image format: txt" error. -/
theorem claim_C8_witness :
    (handle_read_image_file (testEnv "/s" false true 0 (.ok ⟨1, 1, none⟩) [])
      ⟨some "/s/a.png", none⟩).1 = .error (.notFound "/s/a.png") ∧
    (handle_read_image_file
      (testEnv "/s" true true 10 (.ok ⟨400, 100, some ""⟩) [])
      ⟨some "/s/x.txt", none⟩).1 =
        .error (.wrapped "Unsupported image format: txt") :=
  ⟨(claim_C8_errors_name_their_condition
      (testEnv "/s" false true 0 (.ok ⟨1, 1, none⟩) [])).2.2.1
      "/s/a.png" none (by decide) (by rfl) (by rfl),
    (claim_C8_errors_name_their_condition
      (testEnv "/s" true true 10 (.ok ⟨400, 100, some ""⟩) [])).2.2.2.2.2.2.1
      "/s/x.txt" none ⟨400, 100, some ""⟩ "" "txt" (by decide) (by rfl)
      (by rfl) (by rfl) (by decide) (by rfl) (by rfl) (by rfl) (by rfl)
      (by decide) (by decide)⟩

end ImageTools
